import Mathlib

/-!
Verification of the CogniSync behavioral-analysis core: a shallow embedding of
`src/backend/main.py` (score derivation, alert detection, rolling history) and
`src/backend/reasoning.py` (the rule-based tactic-selection engine with per-key
rotation state), with theorems settling the specification's claims about them.

Python floats are modelled by `ℚ` (every constant in the source is a small
decimal), dicts keyed by tactic keys by insertion-ordered association lists,
and the module-level mutable cells (`_key_hit_counts`, `_last_key`,
`_default_idx`) by explicit state records threaded through the functions.
-/

namespace CogniSync

/-- The normalized audio-signal record (`analyze_audio_features` output shape). -/
structure AudioSignals where
  speech_speed : String
  pauses : String
  tone_indicator : String
deriving DecidableEq

/-- The categorical vision signals consumed by `compute_scores`. -/
structure VisionSignals where
  emotion : String
  attention : String
  posture : String
  movement : String
deriving DecidableEq

/-- One fully scored instant: the `current_state` dict built in `analyze`
(main.py lines 162-171). -/
structure Snapshot where
  emotion : String
  posture : String
  attention : String
  movement : String
  engagement_score : ℚ
  stress_score : ℚ
  confidence_score : ℚ
  audio : AudioSignals
deriving DecidableEq

/-! ### ScoreCalculator (main.py `compute_scores`, lines 45-103)

Each weight table `{...}.get(x, 0.0)` becomes an if-chain over the same
literals with default 0; unrecognized values therefore contribute 0. -/

def attention_map (a : String) : ℚ :=
  if a = "high" then 30 else if a = "medium" then 10 else if a = "low" then -20 else 0

def emotion_eng_map (e : String) : ℚ :=
  if e = "happy" then 15 else if e = "surprised" then 10 else if e = "neutral" then 0
  else if e = "sad" then -10 else if e = "angry" then -5 else if e = "disgusted" then -15
  else if e = "fearful" then -10 else 0

def posture_map (p : String) : ℚ :=
  if p = "upright" then 10 else if p = "leaning_forward" then 15
  else if p = "neutral" then 0 else if p = "slouched" then -15 else 0

def speech_map (s : String) : ℚ :=
  if s = "fast" then -5 else if s = "normal" then 5 else if s = "slow" then 0
  else if s = "silent" then -10 else 0

def emotion_stress_map (e : String) : ℚ :=
  if e = "fearful" then 40 else if e = "angry" then 35 else if e = "disgusted" then 25
  else if e = "sad" then 20 else if e = "surprised" then 15 else if e = "neutral" then 5
  else if e = "happy" then -10 else 0

def tone_stress_map (t : String) : ℚ :=
  if t = "stressed" then 25 else if t = "calm" then -10 else if t = "neutral" then 0
  else if t = "excited" then 10 else 0

def pause_stress_map (p : String) : ℚ :=
  if p = "frequent" then 15 else if p = "minimal" then 0 else if p = "none" then 5 else 0

def movement_stress_map (m : String) : ℚ :=
  if m = "restless" then 20 else if m = "moderate" then 5 else if m = "still" then -5 else 0

def conf_posture_map (p : String) : ℚ :=
  if p = "upright" then 20 else if p = "leaning_forward" then 15
  else if p = "neutral" then 0 else if p = "slouched" then -20 else 0

def conf_emotion_map (e : String) : ℚ :=
  if e = "happy" then 15 else if e = "neutral" then 5 else if e = "surprised" then -5
  else if e = "angry" then -10 else if e = "fearful" then -25 else if e = "sad" then -15
  else if e = "disgusted" then -10 else 0

def conf_speech_map (s : String) : ℚ :=
  if s = "fast" then -5 else if s = "normal" then 10 else if s = "slow" then -5
  else if s = "silent" then -15 else 0

/-- `compute_scores(vision_signals, audio_signals)` (main.py lines 45-103):
engagement, stress, confidence, each built by sequential additive updates from
a baseline and clamped to [0,100] as the final step.  `audio = none` models a
falsy `audio_signals` dict (every lookup then takes its documented default). -/
def compute_scores (vision : VisionSignals) (audio : Option AudioSignals) : ℚ × ℚ × ℚ :=
  let emotion := vision.emotion
  let attention := vision.attention
  let posture := vision.posture
  let movement := vision.movement
  let speech_speed := match audio with | some a => a.speech_speed | none => "normal"
  let pauses := match audio with | some a => a.pauses | none => "minimal"
  let tone := match audio with | some a => a.tone_indicator | none => "neutral"
  let engagement : ℚ := 50
  let engagement := engagement + attention_map attention
  let engagement := engagement + emotion_eng_map emotion
  let engagement := engagement + posture_map posture
  let engagement := engagement + speech_map speech_speed
  let engagement := max 0 (min 100 engagement)
  let stress : ℚ := 20
  let stress := stress + emotion_stress_map emotion
  let stress := stress + tone_stress_map tone
  let stress := stress + pause_stress_map pauses
  let stress := stress + movement_stress_map movement
  let stress := max 0 (min 100 stress)
  let confidence : ℚ := 50
  let confidence := confidence + attention_map attention * (1/2)
  let confidence := confidence + conf_posture_map posture
  let confidence := confidence + conf_emotion_map emotion
  let confidence := confidence + conf_speech_map speech_speed
  let confidence := max 0 (min 100 confidence)
  (engagement, stress, confidence)

/-! ### AlertDetector (main.py `detect_alerts`, lines 106-136) -/

/-- The five alert strings `detect_alerts` can append. -/
def eng_drop_alert : String := "⚠️ Engagement dropping significantly"

def stress_spike_alert : String := "⚠️ Stress level spiking"

def low_eng_alert : String := "🔴 Very low engagement detected"

def high_stress_alert : String := "🔴 High stress detected"

def attention_lost_alert : String := "⚠️ Attention lost – subject is disengaged"

/-- `memory[-3:]`: the last `min 3 (length)` entries. -/
def last3 (memory : List Snapshot) : List Snapshot :=
  memory.drop (memory.length - 3)

/-- `detect_alerts(current, memory)` (main.py lines 106-136): returns `[]` when
`len(memory) < 2`, else runs the five checks in order, each appending its alert
string independently. -/
def detect_alerts (current : Snapshot) (memory : List Snapshot) : List String :=
  if memory.length < 2 then []
  else
    let prev_states := last3 memory
    let prev_avg_eng : ℚ := (prev_states.map (·.engagement_score)).sum / prev_states.length
    let alerts : List String := []
    let alerts := if current.engagement_score < prev_avg_eng - 20
      then alerts ++ [eng_drop_alert] else alerts
    let prev_avg_stress : ℚ := (prev_states.map (·.stress_score)).sum / prev_states.length
    let alerts := if current.stress_score > prev_avg_stress + 20
      then alerts ++ [stress_spike_alert] else alerts
    let alerts := if current.engagement_score < 30
      then alerts ++ [low_eng_alert] else alerts
    let alerts := if current.stress_score > 75
      then alerts ++ [high_stress_alert] else alerts
    let alerts := if current.attention = "low"
      then alerts ++ [attention_lost_alert] else alerts
    alerts

/-- The history update in `analyze` (main.py lines 177-179): append the scored
snapshot, then evict index 0 if the length exceeds 5. -/
def remember (memory : List Snapshot) (s : Snapshot) : List Snapshot :=
  let memory := memory ++ [s]
  if memory.length > 5 then memory.drop 1 else memory

/-! ### Rotation state and tactic catalog (reasoning.py lines 153-397) -/

/-- A key of the `TACTICS` dict: a 4-tuple of categorical values, or one of the
`__..__` crisis-tag strings. -/
inductive TKey where
  | tup (emotion attention stress_zone engagement_zone : String)
  | tag (s : String)
deriving DecidableEq

/-- A value of the `TACTICS` dict: the code handles both a bare string and a
list of variants (`isinstance(entry, str)` in `_get_tactic`); the literal dict
only ever stores 3-variant lists. -/
inductive Entry where
  | str (s : String)
  | list (l : List String)
deriving DecidableEq

def ROTATION_EVERY : Nat := 4

/-- The module-level rotation cells `_key_hit_counts` (an insertion-ordered
dict, modelled as an association list without duplicate keys) and
`_last_key[0]`. -/
structure RotState where
  key_hit_counts : List (TKey × Nat)
  last_key : Option TKey
deriving DecidableEq

/-- `d.get(k, default)`. -/
def dict_get (d : List (TKey × Nat)) (k : TKey) (default : Nat) : Nat :=
  match d.find? (fun p => decide (p.1 = k)) with
  | some p => p.2
  | none => default

/-- `d.pop(k, None)`: remove the entry for `k` if present. -/
def dict_pop (d : List (TKey × Nat)) (k : TKey) : List (TKey × Nat) :=
  d.filter (fun p => !(decide (p.1 = k)))

/-- `d[k] = v`: update in place if the key exists, else insert at the end. -/
def dict_set (d : List (TKey × Nat)) (k : TKey) (v : Nat) : List (TKey × Nat) :=
  if d.any (fun p => decide (p.1 = k)) then
    d.map (fun p => if p.1 = k then (k, v) else p)
  else d ++ [(k, v)]

/-- The state of the whole fallback engine: the rotation cells plus the
rotating-default index `_default_idx[0]`. -/
structure PsyState where
  rot : RotState
  default_idx : Nat
deriving DecidableEq

/-- Process start: `_key_hit_counts = {}`, `_last_key = [None]`. -/
def init_rot : RotState := ⟨[], none⟩

def init_psy : PsyState := ⟨init_rot, 0⟩

def TACTICS : List (TKey × Entry) := [
  (TKey.tup "neutral" "low" "low" "low",
   Entry.list [
    "Gaze drifted + engagement collapsed — pattern interrupt: call their name, hold 3 seconds of silence, then ask ONE question: 'What's actually on your mind right now?'",
    "Still disengaged after the interrupt. Abandon the current frame entirely. Ask: 'If we set aside everything discussed so far — what do YOU think the real issue is?'",
    "Prolonged disengagement with calm signals = boredom. Use the Ben Franklin effect: ask them to help you with something small. Requested effort re-activates investment."]),
  (TKey.tup "neutral" "low" "mid" "low",
   Entry.list [
    "Attention lost under stress — they're mentally elsewhere under pressure. Stop all content. Ask: 'What's the one thing that needs to be resolved for you to stay present here?'",
    "Still distracted under stress. Their working memory is saturated. Strip down to ONE sentence, then stay silent — give their brain space to surface what's blocking them.",
    "Sustained stress-distraction. Name it directly: 'It feels like something outside this conversation is competing for your attention.' Naming the distraction often dissolves it."]),
  (TKey.tup "neutral" "low" "low" "mid",
   Entry.list [
    "Mild attention drift. Deploy the Ben Franklin effect: ask a small favor or genuine opinion to re-activate investment. Effort creates engagement.",
    "Still wandering. Introduce a surprising fact or unexpected reframe to trigger a novelty response and pull focus back.",
    "Try an information gap hook: reveal one piece of information they don't know yet, then pause. The gap creates an itch that re-engages attention automatically."]),
  (TKey.tup "neutral" "low" "mid" "mid",
   Entry.list [
    "Attention fracturing under moderate stress. Ask: 'If you had to rank the priorities right now, what comes first?' Decision-making forces re-engagement.",
    "Still split-attention. Strip your message to ONE sentence, hold silence, don't fill it. Let them break the silence — what they say next is your real intelligence.",
    "Still distracted. Reframe by asking for their story from the beginning: narrative mode re-engages the prefrontal cortex."]),
  (TKey.tup "neutral" "high" "low" "high",
   Entry.list [
    "Peak analytical state — focused gaze, calm signals. Introduce your strongest data point and follow with: 'What specific outcome matters most to you?'",
    "Still in analytical mode. Use the 'Columbo technique': ask a deceptively simple question about a complex topic. Their detailed answer reveals exactly what they care about.",
    "Sustained high focus. Deploy your core message and hold silence. Analytically-dominant people perceive silence as confidence, not weakness."]),
  (TKey.tup "neutral" "high" "low" "mid",
   Entry.list [
    "Low stress, high attention — clean slate. Deploy 'commitment and consistency': ask a small yes-question first: 'Would you agree that X is the main priority here?'",
    "Still focused and calm. Use authority anchoring: cite a specific credible source before your point. Authority cues double retention in calm attentive listeners.",
    "Sustained attentive baseline. Introduce a contrast: show where things could be different. Contrast drives decisions even when emotional arousal is low."]),
  (TKey.tup "neutral" "medium" "low" "high",
   Entry.list [
    "Good engagement with calm physiology — ideal for rapport deepening. Mirror their vocabulary, sentence length, and pace precisely.",
    "Sustained high engagement. Use progressive disclosure — one new piece of information at a time. Scarcity of information increases perceived value.",
    "Long-duration high-engagement state. Ask your most important question now — they are mentally ready to engage at depth."]),
  (TKey.tup "neutral" "medium" "low" "mid",
   Entry.list [
    "Stable moderate engagement — rapport territory. Use strategic mirroring: repeat their last 2-3 words as a question to deepen their explanation and signal deep listening.",
    "Continued stable baseline. Ask: 'How does this connect to what matters most to you?' Open-ended questions build psychological intimacy and increase investment.",
    "Sustained stable state. Deploy a label: 'It seems like you're carefully considering the implications here.' A well-placed label makes them feel deeply understood."]),
  (TKey.tup "neutral" "medium" "mid" "mid",
   Entry.list [
    "Moderate stress with partial engagement — say less, ask more. Questions generate lower cognitive load than statements.",
    "Continued mid-stress. Use a 'no'-oriented question: 'Would it be unreasonable to say you'd prefer to slow down here?' Gives them control and releases pressure.",
    "Persisting mid-stress. Try reframing entirely: introduce a third perspective neither of you has discussed. Novel frames release cognitive tension."]),
  (TKey.tup "neutral" "high" "mid" "high",
   Entry.list [
    "High attention + rising stress = cognitive load building. FBI technique: slow your speech 20%, drop pitch, label: 'It seems like you're weighing something carefully…'",
    "High engagement under moderate stress. Ask expansively: 'If pressure weren't a factor at all, what would you do?' Removes the stress frame momentarily.",
    "Sustained stress under high attention. Use the 'accusation audit': name every objection you think they have before they voice it. Anticipating resistance disarms it."]),
  (TKey.tup "happy" "high" "low" "high",
   Entry.list [
    "Buying signal — smile, upright posture, full attention. This is your close window. Use the assumptive close: 'So the next step would be…' — transition as if agreement is made.",
    "Still at peak positive state. Switch to a choice close: 'Would you prefer to start with X or Y?' Either answer advances things forward.",
    "Sustained happiness + high engagement. Activate social proof NOW: 'Others in your exact situation chose this path because…' Positive states make social proof 3× more effective."]),
  (TKey.tup "happy" "high" "low" "mid",
   Entry.list [
    "Positive affect + focused attention = likability peak. Activate reciprocity: share something exclusive or personal to cement the connection before your key ask.",
    "Still at likability peak. Express a genuine point of commonality — perceived similarity is one of the fastest compliance triggers known.",
    "Sustained positive engagement. Tell a relevant success story about someone similar to them. Story activates mirror neurons and bypasses analytical resistance."]),
  (TKey.tup "happy" "medium" "low" "high",
   Entry.list [
    "Relaxed happiness + high engagement — perfect for social proof. Reference: 'Others in this situation have found that…' to anchor your proposal in consensus.",
    "Positive state, moderate attention. Ask for their gut reaction: 'What's your instinct on this?' Gut-level questions deepen investment in outcomes.",
    "Sustained positive state. Use future-pacing: 'Imagine six months from now this worked — what changed?' Future projection in a positive state is highly generative."]),
  (TKey.tup "happy" "high" "mid" "high",
   Entry.list [
    "Joy + slight stress — excitement or performance anxiety. Channel it: 'If this worked perfectly, what would that look like for you?'",
    "Continued positive arousal. Use 'foot in the door': make your smallest possible ask first. Success with small asks primes compliance for larger ones.",
    "Sustained excited state. Connect to their identity: 'This fits someone who values X — and from everything you've said, that's exactly who you are.' Identity framing is deeply motivating."]),
  (TKey.tup "surprised" "high" "low" "high",
   Entry.list [
    "Peak curiosity window — elevated brows, wide eyes. Deliver your single strongest point RIGHT NOW while the dopamine spike is active. Hesitation closes this window in 8 seconds.",
    "Still in curiosity state. Stack a second surprise layer: 'And what makes this even more compelling is…' Stacked surprises compound the dopamine response.",
    "Sustained surprise = genuine fascination. Transition to co-creation: 'What would YOU do with this information?' Co-creation in curiosity state is extremely productive."]),
  (TKey.tup "surprised" "high" "mid" "mid",
   Entry.list [
    "Surprise + moderate stress — new information is creating cognitive dissonance. Hold silence for 5 seconds, then ask: 'What's your first reaction to that?'",
    "Still processing. Ask: 'What part of this is most unexpected to you?' Surfaces their actual objection or point of fascination — critical intelligence.",
    "Continued surprise-processing. Use an accusation audit: name all the doubts you think they're having. Naming eliminates resistance faster than overcoming it."]),
  (TKey.tup "surprised" "medium" "mid" "mid",
   Entry.list [
    "Mild surprise with moderate engagement — processing is happening. Use the accusation audit: preemptively name their concern before they voice it.",
    "Still processing mildly. Ask: 'What would need to be true for this to make complete sense to you?' Question converts surprise into a solvable frame.",
    "Sustained mild surprise. Introduce additional supporting evidence — people in a curiosity state absorb information more quickly than in any other state."]),
  (TKey.tup "fearful" "low" "high" "low",
   Entry.list [
    "Fight-or-flight activated — body withdrawal, speech pauses. STOP all arguments. Label: 'It seems like this feels overwhelming right now.' Then wait silently.",
    "Still in fear state — amygdala hijacked, logic inaccessible. Offer an off-ramp: 'We don't need to solve this right now. What would make this feel less urgent?'",
    "Prolonged fear. Match your pace to a calm FM DJ voice: very slow, warm, deliberate. Their nervous system will entrain to your calm signals within 90 seconds."]),
  (TKey.tup "fearful" "medium" "high" "low",
   Entry.list [
    "Stress flooding with partial attention. Ask a 'no'-oriented question: 'Would it be wrong to say you need more time on this?' Restores control.",
    "Fear persisting. Label the internal experience: 'It seems like there's a concern that hasn't been voiced yet.' Creates permission to surface the real objection.",
    "Sustained fear-partial-attention mix. Validate completely BEFORE introducing any counter-information. Validation before information is the FBI protocol."]),
  (TKey.tup "fearful" "low" "high" "mid",
   Entry.list [
    "Fear state with moderate engagement — they want to engage but feel unsafe. Validate fully: 'That concern makes complete sense given what you've described.'",
    "Still fearful but engaged. Create psychological safety: 'There's no wrong answer here — I'm genuinely trying to understand your perspective.' Safety unlocks re-engagement.",
    "Prolonged fear-engagement mix. Ask: 'What specifically would need to be true for you to feel confident moving forward?' Converts anxiety into a solvable problem."]),
  (TKey.tup "fearful" "medium" "mid" "mid",
   Entry.list [
    "Mild anxiety — this is buying anxiety, not rejection. Use 'That's right': summarize their position so accurately they feel completely understood.",
    "Continued mild anxiety. Introduce future certainty: describe a specific positive future involving them. Certainty of outcome reduces anxiety biologically.",
    "Persistent low-grade anxiety. Ask: 'What's the one thing that would eliminate that concern?' Directs their energy toward solutions rather than problems."]),
  (TKey.tup "angry" "medium" "high" "low",
   Entry.list [
    "Anger spike — jaw tension, restless movement. Do NOT match energy. Lower your volume 30%, let them finish, then label: 'It sounds like this has been frustrating for a long time.'",
    "Anger persisting. Use minimal encouragers — say only 'go on' or 'tell me more'. People cannot sustain anger while feeling genuinely heard.",
    "Sustained anger + low engagement: a core need is unmet. Ask: 'What do you actually need from this situation?' — shift from positions to underlying needs."]),
  (TKey.tup "angry" "low" "high" "low",
   Entry.list [
    "Hot anger + disengagement — they've mentally left. Emergency pivot: 'Help me understand — what would have to change for this to work for you?' Ask ONLY about their perspective.",
    "Still angry and gone. Acknowledge without defending: 'I hear that this is not working. That matters.' Pure acknowledgment without defense.",
    "Prolonged anger-disengagement. Give them power: 'What would you do differently if you were in charge of this?' Positions them as the expert."]),
  (TKey.tup "angry" "medium" "high" "mid",
   Entry.list [
    "Irritation + partial engagement — they feel unheard. Mirror their last key phrase as a question. Mirroring reduces defensiveness by 40% in under 60 seconds.",
    "Still irritated but present. Use the power of apology: take responsibility for something — even small — related to their frustration. Accountability deflates anger.",
    "Continued irritation-engagement mix. Ask: 'What's the most important thing I've missed about your position?' Positions them as expert, you as student."]),
  (TKey.tup "angry" "high" "mid" "mid",
   Entry.list [
    "Agitation + attention still present — channel this energy. Ask a challenge question: 'What's the one thing that would change your mind?' Resistance hides high investment.",
    "Continued engagement under agitation. Name the strength behind their anger: 'The fact you feel this strongly shows how much you care about getting this right.'",
    "Sustained engaged-agitation. Give them a win: 'You're right about X — completely right. Given that, how do we move forward?' Partial agreement creates momentum."]),
  (TKey.tup "sad" "low" "low" "low",
   Entry.list [
    "Withdrawal state — low energy, downward gaze. Activate reciprocity through vulnerability: share a relevant personal struggle BEFORE asking anything.",
    "Still withdrawn. Ask for their story: 'What happened that brought you to this point?' Listen for 2 full minutes without interjecting.",
    "Prolonged withdrawal. Introduce possibility slowly: 'If things were just 10% better — what would that look like?' Small future-pacing reopens possibility without pressure."]),
  (TKey.tup "sad" "medium" "low" "low",
   Entry.list [
    "Mild sadness with partial attention. Ask for their story: 'What happened that brought you to this point?' People in sadness bond through narrative.",
    "Continued sad-partial engagement. Deepen empathy: 'What's the hardest part of all of this for you?' The hardest part is where the real need lives.",
    "Sustained ambivalent-sad state. Use the miracle question: 'If you woke up tomorrow and the problem was gone — how would you know?' Bypasses resistance and activates motivation."]),
  (TKey.tup "sad" "low" "mid" "low",
   Entry.list [
    "Subdued affect signaling low confidence. Use Late Night FM DJ voice: slow, warm, measured. Reflect their emotion before any content: 'This clearly matters to you deeply.'",
    "Still subdued. Introduce possibility: 'What would need to change for this to feel different?' Asking about change implies change is possible — a powerful reframe.",
    "Prolonged subdued state. Ask about the best version of the situation: 'When has this worked well in the past?' Access to positive memory resources often shifts affect."]),
  (TKey.tup "sad" "medium" "mid" "mid",
   Entry.list [
    "Sadness + moderate engagement — ambivalence. Use contrast principle: paint the gap between where they are and where they could be. Emotion follows vision.",
    "Persistent sadness with partial engagement. Deepen empathy: 'What's the hardest part of all of this for you?' Then listen fully without adding content.",
    "Sustained ambivalent-sad state. Use the miracle question: 'If you woke up and the problem was solved — how would you know?' Activates motivation directly."]),
  (TKey.tup "disgusted" "low" "mid" "low",
   Entry.list [
    "Value mismatch — micro-disgust + low attention. Pivot immediately: 'I sense that landed differently than intended — what part concerns you most?'",
    "Value mismatch persisting. Don't defend the previous frame. Ask what matters most to them and rebuild your position from their anchor point.",
    "Persistent value misalignment. Use inversion: present the OPPOSITE position and ask them to critique it. They'll often argue themselves into your actual position."]),
  (TKey.tup "disgusted" "medium" "mid" "mid",
   Entry.list [
    "Subtle rejection — framing isn't resonating. Framing reboot: present the same idea through a completely different lens — individual vs. team, process vs. results.",
    "Continued value friction. Use 'the third story': how would a neutral third party see this situation? Outside perspective breaks in-frame deadlocks.",
    "Sustained misalignment. Find ONE point of genuine agreement and anchor everything else to it. Agreement on any shared value creates a psychological bridge."]),
  (TKey.tag "__engagement_drop__",
   Entry.list [
    "Engagement dropping fast. Pattern interrupt: ask their opinion directly, or call it out openly: 'I can see we've hit something — what's on your mind?'",
    "Engagement still falling. Abandon your current agenda. Ask: 'What would make this conversation worth your time?' Let their answer restructure everything.",
    "Engagement collapse continuing. Radical transparency: 'I feel like I've lost you somewhere — where did this stop working?' Meta-commentary often resets the conversation."]),
  (TKey.tag "__stress_spike__",
   Entry.list [
    "Stress cascading across all signals. Drop to one sentence, slow your breathing visibly, then give them a choice: 'What feels right to you?' Agency dissolves stress.",
    "Stress still elevated. Remove all demands: 'We don't have to solve this today — what would feel manageable to discuss right now?'",
    "Sustained stress spike. Use the paradoxical injunction: 'Take as long as you need — there's no rush at all.' Removing time pressure often accelerates resolution."]),
  (TKey.tag "__inconsistency__",
   Entry.list [
    "Mixed signals — smiling but stress rising. Leakage event. Deploy: 'What aren't we talking about that we should be?' Name the meta-level directly.",
    "Behavioral inconsistency persisting. Ask: 'Your body seems to be saying something your words aren't — what's the real concern here?'",
    "Continued signal contradiction. Try a soft confrontation: 'I notice you say X but I'm getting a different sense — am I reading that wrong?'"]),
  (TKey.tag "__attention_lost__",
   Entry.list [
    "Attention has left — gaze and posture confirm cognitive disengagement. Stop all content. Call their name once, ask: 'What's the most important thing you need from this conversation right now?' Hold 10 seconds of silence.",
    "Still disengaged. Full pattern interrupt: physically reposition, lower your voice to near-whisper, and say only: 'Let me start over.' Novelty and humility together reset attention.",
    "Prolonged disengagement. This conversation needs an exit and restart. Say: 'Let's pause — when would be a better time to continue this?' Graceful exits preserve future access."])
]

def _default_pool : List String := [
  "Stable baseline — all signals calm. Deploy strategic silence: stop talking for 5 seconds and observe micro-reactions. Silence reveals resistance that speech hides.",
  "Neutral baseline. Use the 'summary label': restate their key position verbatim and ask '…is that right?' It triggers the 'That's right' trust response.",
  "Stable environment. Plant a calibrated question: 'What matters most to you in making this decision?' Then listen without interrupting for 90 seconds.",
  "Baseline stable. Apply Cialdini's scarcity principle: introduce a genuine constraint — time or availability. Scarcity elevates perceived value even in calm states.",
  "Consistent stable signals. Use progressive disclosure — share your second most compelling point now, saving the strongest for when engagement peaks.",
  "Clean baseline. Use behavioral mirroring: match their posture, gesture frequency, and breathing pace. Synchrony increases trust by 32% and compliance by 26%.",
  "Signals stable. Deploy an I-statement: 'I'm trying to understand your perspective fully before forming my own.' Epistemic humility paradoxically builds authority.",
  "Sustained neutral. Ask a genuine curiosity question — something you actually don't know the answer to about their situation. Authentic curiosity is one of the rarest and most disarming interpersonal signals."
]

def flow_state_message : String :=
  "You're in the 'flow state' window — emotional safety and cognitive engagement are both high. This is your highest-leverage moment. Make your most important ask or deliver your key message NOW."

/-- `TACTICS.get(key)`: first (unique) entry of the association list. -/
def tactics_get (k : TKey) : Option Entry :=
  (TACTICS.find? (fun p => decide (p.1 = k))).map (fun p => p.2)

/-- The reset step of `_get_tactic` (reasoning.py lines 163-167): on a key
switch, drop the previous key's counter (when there is one) and record the new
key. -/
def rot_reset (key : TKey) (st : RotState) : RotState :=
  if st.last_key ≠ some key then
    { key_hit_counts :=
        match st.last_key with
        | some old => dict_pop st.key_hit_counts old
        | none => st.key_hit_counts,
      last_key := some key }
  else st

/-- `_get_tactic(key)` (reasoning.py lines 161-178): the reset step, then read
the hit count (default 0) and increment it; then look the key up in `TACTICS`,
returning `none` on a miss, a bare string unchanged, and variant
`(hits // 4) % len(entry)` of a list. -/
def _get_tactic (key : TKey) (st0 : RotState) : Option String × RotState :=
  let st := rot_reset key st0
  let hits := dict_get st.key_hit_counts key 0
  let st := { st with key_hit_counts := dict_set st.key_hit_counts key (hits + 1) }
  match tactics_get key with
  | none => (none, st)
  | some (Entry.str s) => (some s, st)
  | some (Entry.list l) => (l.get? ((hits / ROTATION_EVERY) % l.length), st)

/-- `_zone(val, low=35, high=65)` (reasoning.py lines 181-186). -/
def _zone (val : ℚ) (low : ℚ := 35) (high : ℚ := 65) : String :=
  if val < low then "low" else if val > high then "high" else "mid"

/-- Python's substring test `needle in hay`. -/
def py_in (needle hay : String) : Bool :=
  (List.range (hay.toList.length + 1)).any
    (fun i => needle.toList.isPrefixOf (hay.toList.drop i))

/-- Python's `str.lower()` (ASCII case folding suffices for the engine's
alert strings). -/
def py_lower (s : String) : String :=
  String.mk (s.toList.map Char.toLower)

/-- Python truthiness of `_get_tactic`'s result: `None` and `""` are falsy. -/
def truthy : Option String → Bool
  | some s => decide (s ≠ "")
  | none => false

/-- The alert classifier of `_psychology_fallback`'s branch 1 (reasoning.py
line 412): `any(kw in a ... for kw in ("Attention", "attention", "disengaged",
"Disengaged"))` for one alert string. -/
def is_attention_alert (a : String) : Bool :=
  (["Attention", "attention", "disengaged", "Disengaged"] : List String).any
    (fun kw => py_in kw a)

/-- reasoning.py line 414: `"Engagement dropping" in a or "Very low engagement" in a`. -/
def is_eng_alert (a : String) : Bool :=
  py_in "Engagement dropping" a || py_in "Very low engagement" a

/-- reasoning.py line 416: `"Stress" in a or "stress" in a.lower()`. -/
def is_stress_alert (a : String) : Bool :=
  py_in "Stress" a || py_in "stress" (py_lower a)

/-- reasoning.py line 418: `"Inconsistent" in a`. -/
def is_incons_alert (a : String) : Bool :=
  py_in "Inconsistent" a

/-- The fuzzy-relaxation loop of `_psychology_fallback` (reasoning.py lines
459-469): try each key in order, returning on the first truthy result and
keeping every call's mutation of the rotation state. -/
def try_fuzzy : List TKey → RotState → Option String × RotState
  | [], st => (none, st)
  | k :: rest, st =>
    let r := _get_tactic k st
    if truthy r.1 then r else try_fuzzy rest r.2

/-- `_psychology_fallback(current, history, alerts)` (reasoning.py lines
400-482): the priority cascade — alert dispatch, trend detection, hard
overrides, exact then fuzzy catalog lookup, flow-state shortcut, rotating
generic default.  Early `return`s become the if-else cascade; the result pairs
the returned value with the updated engine state. -/
def _psychology_fallback (current : Snapshot) (history : List Snapshot)
    (alerts : List String) (st : PsyState) : Option String × PsyState :=
  let emotion := current.emotion
  let attention := current.attention
  let stress := current.stress_score
  let engagement := current.engagement_score
  let s_zone := _zone stress
  let e_zone := _zone engagement
  -- 1. alert-based tactics
  if !alerts.isEmpty && alerts.any is_attention_alert then
    let r := _get_tactic (TKey.tag "__attention_lost__") st.rot
    (r.1, { st with rot := r.2 })
  else if !alerts.isEmpty && alerts.any is_eng_alert then
    let r := _get_tactic (TKey.tag "__engagement_drop__") st.rot
    (r.1, { st with rot := r.2 })
  else if !alerts.isEmpty && alerts.any is_stress_alert then
    let r := _get_tactic (TKey.tag "__stress_spike__") st.rot
    (r.1, { st with rot := r.2 })
  else if !alerts.isEmpty && alerts.any is_incons_alert then
    let r := _get_tactic (TKey.tag "__inconsistency__") st.rot
    (r.1, { st with rot := r.2 })
  else
    -- 2. cross-state trend detection (history[-3] three snapshots back)
    let hist3 := history.getD (history.length - 3) current
    let eng_trend := engagement - hist3.engagement_score
    let stress_trend := stress - hist3.stress_score
    let emotions := (last3 history).map (·.emotion) ++ [emotion]
    if 3 ≤ history.length ∧ eng_trend < -15 then
      let r := _get_tactic (TKey.tag "__engagement_drop__") st.rot
      (r.1, { st with rot := r.2 })
    else if 3 ≤ history.length ∧ stress_trend > 15 then
      let r := _get_tactic (TKey.tag "__stress_spike__") st.rot
      (r.1, { st with rot := r.2 })
    else if 3 ≤ history.length ∧ 3 ≤ emotions.dedup.length then
      let r := _get_tactic (TKey.tag "__inconsistency__") st.rot
      (r.1, { st with rot := r.2 })
    -- 3. hard overrides before TACTICS lookup
    else if attention = "low" then
      let r := _get_tactic (TKey.tup emotion "low" s_zone e_zone) st.rot
      if truthy r.1 then (r.1, { st with rot := r.2 })
      else
        let r2 := _get_tactic (TKey.tag "__attention_lost__") r.2
        (r2.1, { st with rot := r2.2 })
    else if stress > 65 then
      let r := _get_tactic (TKey.tup emotion attention "high" e_zone) st.rot
      if truthy r.1 then (r.1, { st with rot := r.2 })
      else
        let r2 := _get_tactic (TKey.tag "__stress_spike__") r.2
        (r2.1, { st with rot := r2.2 })
    else if engagement < 30 then
      let r := _get_tactic (TKey.tag "__engagement_drop__") st.rot
      (r.1, { st with rot := r.2 })
    else
      -- 4. exact TACTICS lookup then fuzzy match
      let r := _get_tactic (TKey.tup emotion attention s_zone e_zone) st.rot
      if truthy r.1 then (r.1, { st with rot := r.2 })
      else
        let fz := try_fuzzy [
          TKey.tup emotion attention "mid" e_zone,
          TKey.tup emotion attention s_zone "mid",
          TKey.tup emotion attention "mid" "mid",
          TKey.tup emotion "medium" s_zone e_zone,
          TKey.tup emotion "medium" "mid" e_zone,
          TKey.tup emotion "medium" "mid" "mid"] r.2
        if truthy fz.1 then (fz.1, { st with rot := fz.2 })
        -- 5. optimal state shortcut
        else if engagement > 70 ∧ stress < 35 then
          (some flow_state_message, { st with rot := fz.2 })
        -- 6. rotating default
        else
          let idx := st.default_idx % _default_pool.length
          (_default_pool.get? idx, { rot := fz.2, default_idx := st.default_idx + 1 })

/-- The history the advisory call sees: `analyze` appends the scored snapshot
(evicting past capacity 5) and then passes `state_memory[:-1]`
(main.py lines 177-186). -/
def advice_history (memory : List Snapshot) (current : Snapshot) : List Snapshot :=
  (remember memory current).dropLast

/-- One `analyze` request's core pipeline (main.py lines 174-187) in the
fallback configuration: alert detection against the pre-append history, the
history update, then the fallback engine on `state_memory[:-1]`. -/
def analyze_step (memory : List Snapshot) (st : PsyState) (current : Snapshot) :
    List String × List Snapshot × (Option String × PsyState) :=
  let alerts := detect_alerts current memory
  let memory2 := remember memory current
  let r := _psychology_fallback current memory2.dropLast alerts st
  (alerts, memory2, r)

/-! ### Concrete test data and iteration helpers used by the theorems -/

/-- A neutral snapshot with a chosen engagement score, for concrete runs. -/
def test_snap (n : Nat) : Snapshot :=
  { emotion := "neutral", posture := "neutral", attention := "medium", movement := "still",
    engagement_score := n, stress_score := 0, confidence_score := 0,
    audio := ⟨"normal", "minimal", "neutral"⟩ }

/-- The specification's end-to-end hard-override example: emotion fearful,
attention low, stress 85, engagement 20. -/
def fearful_snap : Snapshot :=
  { emotion := "fearful", posture := "neutral", attention := "low", movement := "still",
    engagement_score := 20, stress_score := 85, confidence_score := 50,
    audio := ⟨"normal", "minimal", "neutral"⟩ }

/-- A low-attention snapshot whose override key `("happy", "low", "mid", "mid")`
is absent from the catalog, so selection resolves through the
catalog-miss-then-crisis-tag path. -/
def happy_low_snap : Snapshot :=
  { emotion := "happy", posture := "neutral", attention := "low", movement := "still",
    engagement_score := 50, stress_score := 50, confidence_score := 50,
    audio := ⟨"normal", "minimal", "neutral"⟩ }

/-- The 3-variant catalog key used for the concrete rotation runs. -/
def K1 : TKey := TKey.tup "neutral" "low" "low" "low"

/-- A second catalog key, for the key-switch run. -/
def K2 : TKey := TKey.tup "happy" "high" "low" "high"

/-- The variant list stored under `K1`. -/
def K1_variants : List String :=
  match tactics_get K1 with
  | some (Entry.list l) => l
  | _ => []

/-- The variant list stored under the `__attention_lost__` crisis tag. -/
def attn_lost_variants : List String :=
  match tactics_get (TKey.tag "__attention_lost__") with
  | some (Entry.list l) => l
  | _ => []

/-- Iterate `_get_tactic` on one key, collecting the returned values. -/
def rot_run (key : TKey) : RotState → Nat → List (Option String)
  | _, 0 => []
  | st, n + 1 =>
    let r := _get_tactic key st
    r.1 :: rot_run key r.2 n

/-! ### Specification-side helper definitions used by the theorems -/

/-- The final clamp `max(0.0, min(100.0, x))` of each score. -/
def clamp (x : ℚ) : ℚ := max 0 (min 100 x)

theorem clamp_bounds (x : ℚ) : 0 ≤ clamp x ∧ clamp x ≤ 100 :=
  ⟨le_max_left _ _, max_le (by norm_num) (min_le_left _ _)⟩

/-- The speech value `compute_scores` reads from a possibly-falsy audio dict. -/
def audio_speech (audio : Option AudioSignals) : String :=
  match audio with | some a => a.speech_speed | none => "normal"

def audio_pauses (audio : Option AudioSignals) : String :=
  match audio with | some a => a.pauses | none => "minimal"

def audio_tone (audio : Option AudioSignals) : String :=
  match audio with | some a => a.tone_indicator | none => "neutral"

/-- The reachable-state invariant of the rotation cells: the hit-count dict
holds at most one entry, and only for the current `last_key`. -/
def rot_inv (st : RotState) : Prop :=
  st.key_hit_counts.length ≤ 1 ∧ ∀ p ∈ st.key_hit_counts, st.last_key = some p.1

/-- The hit count `_get_tactic` effectively reads for `key` in a reachable
state: the stored counter while the key is current, 0 after a key switch. -/
def hits0 (st : RotState) (key : TKey) : Nat :=
  if st.last_key = some key then dict_get st.key_hit_counts key 0 else 0

/-- An entry yields text: a non-empty bare string, or a non-empty list of
non-empty strings. -/
def entry_ok : Entry → Bool
  | Entry.str s => decide (s ≠ "")
  | Entry.list l => !l.isEmpty && l.all (fun s => decide (s ≠ ""))

/-! ### Theorems -/

/-! ### Supporting lemmas -/

/-- C2: for every combination of categorical inputs — unrecognized values
included, each contributing zero weight — `compute_scores` returns three
values in [0, 100], each the documented baseline plus additive weighted
lookups with the clamp to [0, 100] as the final step; as a Lean function it
is pure and deterministic. -/
theorem compute_scores_spec (vision : VisionSignals) (audio : Option AudioSignals) :
    (0 ≤ (compute_scores vision audio).1 ∧ (compute_scores vision audio).1 ≤ 100) ∧
    (0 ≤ (compute_scores vision audio).2.1 ∧ (compute_scores vision audio).2.1 ≤ 100) ∧
    (0 ≤ (compute_scores vision audio).2.2 ∧ (compute_scores vision audio).2.2 ≤ 100) ∧
    compute_scores vision audio =
      (clamp (50 + attention_map vision.attention + emotion_eng_map vision.emotion
          + posture_map vision.posture + speech_map (audio_speech audio)),
       clamp (20 + emotion_stress_map vision.emotion + tone_stress_map (audio_tone audio)
          + pause_stress_map (audio_pauses audio) + movement_stress_map vision.movement),
       clamp (50 + attention_map vision.attention * (1/2) + conf_posture_map vision.posture
          + conf_emotion_map vision.emotion + conf_speech_map (audio_speech audio))) ∧
    (∀ v, v ∉ (["high", "medium", "low"] : List String) → attention_map v = 0) ∧
    (∀ v, v ∉ (["happy", "surprised", "neutral", "sad", "angry", "disgusted",
        "fearful"] : List String) → emotion_eng_map v = 0 ∧ emotion_stress_map v = 0 ∧
        conf_emotion_map v = 0) ∧
    (∀ v, v ∉ (["upright", "leaning_forward", "neutral", "slouched"] : List String) →
        posture_map v = 0 ∧ conf_posture_map v = 0) ∧
    (∀ v, v ∉ (["fast", "normal", "slow", "silent"] : List String) →
        speech_map v = 0 ∧ conf_speech_map v = 0) ∧
    (∀ v, v ∉ (["stressed", "calm", "neutral", "excited"] : List String) →
        tone_stress_map v = 0) ∧
    (∀ v, v ∉ (["frequent", "minimal", "none"] : List String) → pause_stress_map v = 0) ∧
    (∀ v, v ∉ (["restless", "moderate", "still"] : List String) →
        movement_stress_map v = 0) := by
  refine ⟨clamp_bounds _, clamp_bounds _, clamp_bounds _, rfl, ?_, ?_, ?_, ?_, ?_, ?_, ?_⟩
  · intro v hv; unfold attention_map; split_ifs <;> simp_all
  · intro v hv
    refine ⟨?_, ?_, ?_⟩
    · unfold emotion_eng_map; split_ifs <;> simp_all
    · unfold emotion_stress_map; split_ifs <;> simp_all
    · unfold conf_emotion_map; split_ifs <;> simp_all
  · intro v hv
    refine ⟨?_, ?_⟩
    · unfold posture_map; split_ifs <;> simp_all
    · unfold conf_posture_map; split_ifs <;> simp_all
  · intro v hv
    refine ⟨?_, ?_⟩
    · unfold speech_map; split_ifs <;> simp_all
    · unfold conf_speech_map; split_ifs <;> simp_all
  · intro v hv; unfold tone_stress_map; split_ifs <;> simp_all
  · intro v hv; unfold pause_stress_map; split_ifs <;> simp_all
  · intro v hv; unfold movement_stress_map; split_ifs <;> simp_all

/-- Witness for `compute_scores_spec` at a concrete input with an
unrecognized categorical value. -/
theorem compute_scores_spec_witness :
    0 ≤ (compute_scores ⟨"zzz", "zzz", "zzz", "zzz"⟩ none).1 ∧ attention_map "zzz" = 0 :=
  ⟨(compute_scores_spec ⟨"zzz", "zzz", "zzz", "zzz"⟩ none).1.1,
   (compute_scores_spec ⟨"zzz", "zzz", "zzz", "zzz"⟩ none).2.2.2.2.1 "zzz" (by decide)⟩

/-- Five conditional singleton blocks over distinct strings concatenate to a
duplicate-free list. -/
theorem nodup_blocks {p1 p2 p3 p4 p5 : Prop}
    [Decidable p1] [Decidable p2] [Decidable p3] [Decidable p4] [Decidable p5]
    {s1 s2 s3 s4 s5 : String} (hd : ([s1, s2, s3, s4, s5] : List String).Nodup) :
    ((if p1 then [s1] else []) ++ (if p2 then [s2] else []) ++
     (if p3 then [s3] else []) ++ (if p4 then [s4] else []) ++
     (if p5 then [s5] else [])).Nodup := by
  simp only [List.nodup_cons, List.mem_cons, List.nodup_nil, List.mem_singleton,
    List.not_mem_nil, or_false, and_true] at hd
  split_ifs <;> simp_all

/-- C3: `detect_alerts` is pure; it returns `[]` whenever the history has
fewer than 2 entries, and otherwise equals the concatenation, in the fixed
order, of the five independently-appended singleton blocks (the window being
the last `min 3 (length)` history entries); no alert fires more than once. -/
theorem detect_alerts_spec (current : Snapshot) (memory : List Snapshot) :
    (memory.length < 2 → detect_alerts current memory = []) ∧
    (2 ≤ memory.length →
      (last3 memory).length = min 3 memory.length ∧
      detect_alerts current memory =
        (if current.engagement_score <
            ((last3 memory).map (·.engagement_score)).sum / ((last3 memory).length : ℚ) - 20
         then [eng_drop_alert] else []) ++
        (if current.stress_score >
            ((last3 memory).map (·.stress_score)).sum / ((last3 memory).length : ℚ) + 20
         then [stress_spike_alert] else []) ++
        (if current.engagement_score < 30 then [low_eng_alert] else []) ++
        (if current.stress_score > 75 then [high_stress_alert] else []) ++
        (if current.attention = "low" then [attention_lost_alert] else [])) ∧
    (∀ a, (detect_alerts current memory).count a ≤ 1) := by
  have hwin : (last3 memory).length = min 3 memory.length := by
    unfold last3; rw [List.length_drop]; omega
  have heq : 2 ≤ memory.length → detect_alerts current memory =
      (if current.engagement_score <
          ((last3 memory).map (·.engagement_score)).sum / ((last3 memory).length : ℚ) - 20
       then [eng_drop_alert] else []) ++
      (if current.stress_score >
          ((last3 memory).map (·.stress_score)).sum / ((last3 memory).length : ℚ) + 20
       then [stress_spike_alert] else []) ++
      (if current.engagement_score < 30 then [low_eng_alert] else []) ++
      (if current.stress_score > 75 then [high_stress_alert] else []) ++
      (if current.attention = "low" then [attention_lost_alert] else []) := by
    intro h
    unfold detect_alerts
    rw [if_neg (by omega)]
    dsimp only
    split_ifs <;> rfl
  refine ⟨?_, fun h => ⟨hwin, heq h⟩, ?_⟩
  · intro h; unfold detect_alerts; rw [if_pos h]
  · intro a
    rcases Nat.lt_or_ge memory.length 2 with h | h
    · unfold detect_alerts; rw [if_pos h]; simp
    · rw [heq h]
      exact List.nodup_iff_count_le_one.mp (nodup_blocks (by decide)) a

/-- Witness for `detect_alerts_spec`'s two conditional parts, at a concrete
snapshot and history (the worked example of the specification: a drop from a
window averaging 78 to 50 fires `engagement_dropping`). -/
theorem detect_alerts_spec_witness :
    detect_alerts (test_snap 50) [] = [] ∧
    detect_alerts (test_snap 50) [test_snap 80, test_snap 78, test_snap 76] =
      [eng_drop_alert] := by
  constructor
  · exact (detect_alerts_spec (test_snap 50) []).1 (by decide)
  · have h := ((detect_alerts_spec (test_snap 50)
      [test_snap 80, test_snap 78, test_snap 76]).2.1 (by decide)).2
    rw [h]
    norm_num [last3, test_snap]
    decide

/-- C4: the history store's append keeps at most 5 snapshots — appending to a
store of at most 5 leaves at most 5 — and appending snapshots 1..7 to an empty
store leaves exactly snapshots 3..7, oldest first. -/
theorem remember_capacity :
    (∀ (memory : List Snapshot) (s : Snapshot), memory.length ≤ 5 →
      (remember memory s).length ≤ 5) ∧
    List.foldl remember []
        [test_snap 1, test_snap 2, test_snap 3, test_snap 4, test_snap 5,
         test_snap 6, test_snap 7] =
      [test_snap 3, test_snap 4, test_snap 5, test_snap 6, test_snap 7] := by
  constructor
  · intro memory s h
    unfold remember
    dsimp only
    split <;> (simp only [List.length_drop, List.length_append, List.length_singleton] at *; omega)
  · rfl

/-- Witness for `remember_capacity`'s bounded-length part at a concrete store. -/
theorem remember_capacity_witness :
    (remember [test_snap 1, test_snap 2, test_snap 3, test_snap 4, test_snap 5]
      (test_snap 6)).length ≤ 5 :=
  remember_capacity.1 _ _ (by decide)

/-! ### Rotation-state lemmas -/

theorem rot_inv_init : rot_inv init_rot :=
  ⟨by simp [init_rot], by simp [init_rot]⟩

theorem rotstate_update (r : RotState) (X : List (TKey × Nat)) :
    ({ r with key_hit_counts := X } : RotState) = ⟨X, r.last_key⟩ := by
  cases r; rfl

theorem dict_get_single_self (k : TKey) (n d : Nat) : dict_get [(k, n)] k d = n := by
  unfold dict_get
  rw [List.find?_cons_of_pos _ (by simp)]

theorem dict_set_single_self (k : TKey) (n v : Nat) :
    dict_set [(k, n)] k v = [(k, v)] := by
  simp [dict_set]

theorem rot_reset_last (key : TKey) (st : RotState) :
    (rot_reset key st).last_key = some key := by
  unfold rot_reset
  split
  · rfl
  · rename_i h
    exact not_ne_iff.mp h

theorem rot_reset_counts {st : RotState} (h : rot_inv st) (key : TKey) :
    (rot_reset key st).key_hit_counts =
      if st.last_key = some key then st.key_hit_counts else [] := by
  obtain ⟨hlen, hkeys⟩ := h
  unfold rot_reset
  by_cases hlk : st.last_key = some key
  · rw [if_neg (not_not_intro hlk), if_pos hlk]
  · rw [if_pos hlk, if_neg hlk]
    dsimp only
    cases hl : st.last_key with
    | none =>
      cases hc : st.key_hit_counts with
      | nil => rfl
      | cons p t =>
        have := hkeys p (by rw [hc]; exact List.mem_cons_self p t)
        rw [hl] at this
        exact absurd this (by simp)
    | some old =>
      apply List.filter_eq_nil_iff.mpr
      intro p hp
      have := hkeys p hp
      rw [hl] at this
      obtain rfl : old = p.1 := by injection this
      simp

/-- In a reachable state whose `last_key` is `key`, the dict is empty or the
single entry for `key`. -/
theorem inv_counts_cases {st : RotState} (h : rot_inv st) {key : TKey}
    (hlk : st.last_key = some key) :
    st.key_hit_counts = [] ∨ ∃ n, st.key_hit_counts = [(key, n)] := by
  obtain ⟨hlen, hkeys⟩ := h
  cases hc : st.key_hit_counts with
  | nil => exact Or.inl rfl
  | cons p t =>
    cases t with
    | nil =>
      right
      have := hkeys p (by rw [hc]; exact List.mem_cons_self p [])
      rw [hlk] at this
      obtain rfl : key = p.1 := by injection this
      exact ⟨p.2, rfl⟩
    | cons q u => rw [hc] at hlen; simp at hlen

/-- The state component of `_get_tactic`: reset, then store the incremented
hit count (independent of whether the catalog lookup hits). -/
theorem get_tactic_snd (key : TKey) (st : RotState) :
    (_get_tactic key st).2 =
      { rot_reset key st with
        key_hit_counts := dict_set (rot_reset key st).key_hit_counts key
          (dict_get (rot_reset key st).key_hit_counts key 0 + 1) } := by
  unfold _get_tactic
  cases htg : tactics_get key with
  | none => simp [htg]
  | some e => cases e <;> simp [htg]

/-- The value component of `_get_tactic`, as a function of the pre-increment
hit count. -/
theorem get_tactic_fst (key : TKey) (st : RotState) :
    (_get_tactic key st).1 =
      match tactics_get key with
      | none => none
      | some (Entry.str s) => some s
      | some (Entry.list l) =>
          l.get? ((dict_get (rot_reset key st).key_hit_counts key 0 / ROTATION_EVERY)
            % l.length) := by
  unfold _get_tactic
  cases htg : tactics_get key with
  | none => simp [htg]
  | some e => cases e <;> simp [htg]

/-- From a reachable state, a call for `key` leaves exactly the one counter
`key ↦ hits0 + 1` and `last_key = key`. -/
theorem get_tactic_state {st : RotState} (h : rot_inv st) (key : TKey) :
    (_get_tactic key st).2 = ⟨[(key, hits0 st key + 1)], some key⟩ := by
  rw [get_tactic_snd, rotstate_update, rot_reset_last, rot_reset_counts h]
  unfold hits0
  by_cases hlk : st.last_key = some key
  · rw [if_pos hlk, if_pos hlk]
    rcases inv_counts_cases h hlk with h0 | ⟨n, h0⟩
    · rw [h0]; rfl
    · rw [h0, dict_get_single_self, dict_set_single_self]
  · rw [if_neg hlk, if_neg hlk]
    rfl

/-- From a reachable state, the returned value is the catalog entry at index
`(hits0 / ROTATION_EVERY) % variantCount` (or the bare string, or `none` on a
miss). -/
theorem get_tactic_result {st : RotState} (h : rot_inv st) (key : TKey) :
    (_get_tactic key st).1 =
      match tactics_get key with
      | none => none
      | some (Entry.str s) => some s
      | some (Entry.list l) => l.get? ((hits0 st key / ROTATION_EVERY) % l.length) := by
  have hhits : dict_get (rot_reset key st).key_hit_counts key 0 = hits0 st key := by
    rw [rot_reset_counts h]
    unfold hits0
    by_cases hlk : st.last_key = some key
    · rw [if_pos hlk, if_pos hlk]
    · rw [if_neg hlk, if_neg hlk]; rfl
  rw [get_tactic_fst, hhits]

theorem get_tactic_preserves_inv {st : RotState} (h : rot_inv st) (key : TKey) :
    rot_inv (_get_tactic key st).2 := by
  rw [get_tactic_state h]
  refine ⟨by simp, ?_⟩
  intro p hp
  rw [List.mem_singleton] at hp
  subst hp
  rfl

/-- C5: the rotation index returned for a catalog key holding a variant list
is `(h / ROTATION_EVERY) % variantCount`, where `h` is the hit count held for
the key before the call (0 after a key switch); concretely, 12 consecutive
calls on the 3-variant key `K1` from the initial state return variants
0,0,0,0,1,1,1,1,2,2,2,2. -/
theorem rotation_spec :
    (∀ (st : RotState) (key : TKey) (l : List String), rot_inv st →
      tactics_get key = some (Entry.list l) →
      (_get_tactic key st).1 = l.get? ((hits0 st key / ROTATION_EVERY) % l.length)) ∧
    tactics_get K1 = some (Entry.list K1_variants) ∧ K1_variants.length = 3 ∧
    rot_run K1 init_rot 12 =
      [K1_variants.get? 0, K1_variants.get? 0, K1_variants.get? 0, K1_variants.get? 0,
       K1_variants.get? 1, K1_variants.get? 1, K1_variants.get? 1, K1_variants.get? 1,
       K1_variants.get? 2, K1_variants.get? 2, K1_variants.get? 2, K1_variants.get? 2] := by
  refine ⟨?_, rfl, rfl, rfl⟩
  intro st key l hinv htg
  rw [get_tactic_result hinv, htg]

/-- Witness for `rotation_spec`'s general formula at the initial state. -/
theorem rotation_spec_witness :
    (_get_tactic K1 init_rot).1 =
      K1_variants.get? ((hits0 init_rot K1 / ROTATION_EVERY) % K1_variants.length) :=
  rotation_spec.1 init_rot K1 K1_variants rot_inv_init rfl

/-- C6: switching keys clears the previous key's counter: the hit-count dict
holds at most one entry at any time (the invariant holds initially and is
preserved by every call), and in the run `K1, K1, K2, K1` the 4th call
observes hit count 0 for `K1` — its counter was deleted by the switch to `K2`
— and returns variant 0 again rather than continuing from 2. -/
theorem rotation_key_switch :
    (rot_inv init_rot ∧
      ∀ (st : RotState) (key : TKey), rot_inv st → rot_inv (_get_tactic key st).2) ∧
    dict_get ((_get_tactic K2 (_get_tactic K1 (_get_tactic K1 init_rot).2).2).2).key_hit_counts
      K1 0 = 0 ∧
    ((_get_tactic K2 (_get_tactic K1 (_get_tactic K1 init_rot).2).2).2).key_hit_counts
      = [(K2, 1)] ∧
    hits0 ((_get_tactic K2 (_get_tactic K1 (_get_tactic K1 init_rot).2).2).2) K1 = 0 ∧
    (_get_tactic K1 ((_get_tactic K2 (_get_tactic K1 (_get_tactic K1 init_rot).2).2).2)).1
      = K1_variants.get? 0 ∧
    (_get_tactic K1 ((_get_tactic K2 (_get_tactic K1 (_get_tactic K1 init_rot).2).2).2)).2.key_hit_counts
      = [(K1, 1)] := by
  exact ⟨⟨rot_inv_init, fun st key h => get_tactic_preserves_inv h key⟩,
    rfl, rfl, rfl, rfl, rfl⟩

/-- Witness for `rotation_key_switch`'s invariant-preservation part at a
concrete reachable state. -/
theorem rotation_key_switch_witness :
    rot_inv (_get_tactic K2 init_rot).2 :=
  rotation_key_switch.1.2 init_rot K2 rotation_key_switch.1.1

/-! ### Catalog sanity: every stored entry is non-empty text -/

theorem tactics_ok : TACTICS.all (fun p => entry_ok p.2) = true := by decide

theorem default_pool_ok : _default_pool ≠ [] ∧ ∀ s ∈ _default_pool, s ≠ "" := by
  constructor
  · decide
  · decide

theorem flow_ok : flow_state_message ≠ "" := by decide

theorem truthy_iff (r : Option String) : truthy r = true ↔ ∃ s, r = some s ∧ s ≠ "" := by
  cases r with
  | none => simp [truthy]
  | some s => simp [truthy]

theorem entry_ok_list {l : List String} (h : entry_ok (Entry.list l) = true) :
    l ≠ [] ∧ ∀ s ∈ l, s ≠ "" := by
  unfold entry_ok at h
  rw [Bool.and_eq_true, List.all_eq_true] at h
  obtain ⟨h1, h2⟩ := h
  refine ⟨?_, fun s hs => by simpa using h2 s hs⟩
  intro hnil
  rw [hnil] at h1
  simp at h1

theorem tactics_get_ok {k : TKey} {e : Entry} (h : tactics_get k = some e) :
    entry_ok e = true := by
  unfold tactics_get at h
  cases hf : TACTICS.find? (fun p => decide (p.1 = k)) with
  | none => rw [hf] at h; simp at h
  | some p =>
    rw [hf] at h
    simp only [Option.map_some'] at h
    have hmem := List.mem_of_find?_eq_some hf
    have hall := List.all_eq_true.mp tactics_ok p hmem
    have he2 : p.2 = e := by injection h
    rw [← he2]
    exact hall

theorem get?_mod_ne {l : List String} (hne : l ≠ []) (hall : ∀ s ∈ l, s ≠ "") (n : Nat) :
    ∃ s, l.get? (n % l.length) = some s ∧ s ≠ "" := by
  have hlen : 0 < l.length := List.length_pos.mpr hne
  have hlt : n % l.length < l.length := Nat.mod_lt _ hlen
  exact ⟨l.get ⟨n % l.length, hlt⟩, List.get?_eq_get hlt, hall _ (l.get_mem _ _)⟩

/-- Any key present in the catalog yields a non-empty tactic string, whatever
the rotation state. -/
theorem get_tactic_found {k : TKey} (he : (tactics_get k).isSome = true) (st : RotState) :
    ∃ s, (_get_tactic k st).1 = some s ∧ s ≠ "" := by
  rw [Option.isSome_iff_exists] at he
  obtain ⟨e, he⟩ := he
  have hok := tactics_get_ok he
  rw [get_tactic_fst, he]
  cases e with
  | str s =>
    exact ⟨s, rfl, by simpa [entry_ok] using hok⟩
  | list l =>
    obtain ⟨hne, hall⟩ := entry_ok_list hok
    exact get?_mod_ne hne hall _

theorem truthy_of_found {k : TKey} (he : (tactics_get k).isSome = true) (st : RotState) :
    truthy (_get_tactic k st).1 = true := by
  obtain ⟨s, hs, hsne⟩ := get_tactic_found he st
  rw [truthy_iff]
  exact ⟨s, hs, hsne⟩

/-- C8: in the hard-override branch the `attention == low` check takes
precedence over the `stress > 65` check: for emotion fearful, attention low,
stress 85, engagement 20, with fewer than 3 history entries and no alerts,
`select` resolves through the catalog lookup for `(fearful, low, high, low)`. -/
theorem attention_precedes_stress (st : PsyState) (history : List Snapshot)
    (hh : history.length < 3) :
    _psychology_fallback fearful_snap history [] st =
      ((_get_tactic (TKey.tup "fearful" "low" "high" "low") st.rot).1,
       { st with rot := (_get_tactic (TKey.tup "fearful" "low" "high" "low") st.rot).2 }) := by
  unfold _psychology_fallback
  dsimp only
  rw [if_neg (by simp), if_neg (by simp), if_neg (by simp), if_neg (by simp),
    if_neg (fun hc => absurd hc.1 (by omega)),
    if_neg (fun hc => absurd hc.1 (by omega)),
    if_neg (fun hc => absurd hc.1 (by omega)),
    if_pos (show fearful_snap.attention = "low" from rfl)]
  rw [if_pos (truthy_of_found (by decide) st.rot)]
  rfl

/-- Witness for `attention_precedes_stress` at the empty history and fresh
state. -/
theorem attention_precedes_stress_witness :
    _psychology_fallback fearful_snap [] [] init_psy =
      ((_get_tactic (TKey.tup "fearful" "low" "high" "low") init_rot).1,
       { init_psy with rot := (_get_tactic (TKey.tup "fearful" "low" "high" "low") init_rot).2 }) :=
  attention_precedes_stress init_psy [] (by decide)

/-- C1: for every input and engine state, `select`'s fallback cascade
terminates (it is a total Lean function) and returns a non-empty string:
every branch — alert dispatch, trend detection, hard overrides, exact lookup,
fuzzy relaxation, flow-state shortcut, rotating generic default — yields a
non-empty recommendation, and a catalog miss never produces an error or an
empty result. -/
theorem select_total (current : Snapshot) (history : List Snapshot)
    (alerts : List String) (st : PsyState) :
    ∃ s, (_psychology_fallback current history alerts st).1 = some s ∧ s ≠ "" := by
  suffices h : ∀ v st', _psychology_fallback current history alerts st = (v, st') →
      ∃ s, v = some s ∧ s ≠ "" by
    obtain ⟨s, hs, hne⟩ := h (_psychology_fallback current history alerts st).1
      (_psychology_fallback current history alerts st).2 Prod.mk.eta.symm
    exact ⟨s, by rw [hs], hne⟩
  intro v st' hr
  unfold _psychology_fallback at hr
  dsimp only at hr
  by_cases c1 : (!alerts.isEmpty && alerts.any is_attention_alert) = true
  · rw [if_pos c1] at hr
    injection hr with h1 h2; subst h1
    exact get_tactic_found (by decide) _
  rw [if_neg c1] at hr
  by_cases c2 : (!alerts.isEmpty && alerts.any is_eng_alert) = true
  · rw [if_pos c2] at hr
    injection hr with h1 h2; subst h1
    exact get_tactic_found (by decide) _
  rw [if_neg c2] at hr
  by_cases c3 : (!alerts.isEmpty && alerts.any is_stress_alert) = true
  · rw [if_pos c3] at hr
    injection hr with h1 h2; subst h1
    exact get_tactic_found (by decide) _
  rw [if_neg c3] at hr
  by_cases c4 : (!alerts.isEmpty && alerts.any is_incons_alert) = true
  · rw [if_pos c4] at hr
    injection hr with h1 h2; subst h1
    exact get_tactic_found (by decide) _
  rw [if_neg c4] at hr
  by_cases c5 : 3 ≤ history.length ∧
      current.engagement_score - (history.getD (history.length - 3) current).engagement_score < -15
  · rw [if_pos c5] at hr
    injection hr with h1 h2; subst h1
    exact get_tactic_found (by decide) _
  rw [if_neg c5] at hr
  by_cases c6 : 3 ≤ history.length ∧
      current.stress_score - (history.getD (history.length - 3) current).stress_score > 15
  · rw [if_pos c6] at hr
    injection hr with h1 h2; subst h1
    exact get_tactic_found (by decide) _
  rw [if_neg c6] at hr
  by_cases c7 : 3 ≤ history.length ∧
      3 ≤ ((last3 history).map (fun x => x.emotion) ++ [current.emotion]).dedup.length
  · rw [if_pos c7] at hr
    injection hr with h1 h2; subst h1
    exact get_tactic_found (by decide) _
  rw [if_neg c7] at hr
  by_cases c8 : current.attention = "low"
  · rw [if_pos c8] at hr
    by_cases c8t : truthy (_get_tactic (TKey.tup current.emotion "low"
        (_zone current.stress_score) (_zone current.engagement_score)) st.rot).1 = true
    · rw [if_pos c8t] at hr
      injection hr with h1 h2; subst h1
      exact (truthy_iff _).mp c8t
    · rw [if_neg c8t] at hr
      injection hr with h1 h2; subst h1
      exact get_tactic_found (by decide) _
  rw [if_neg c8] at hr
  by_cases c9 : current.stress_score > 65
  · rw [if_pos c9] at hr
    by_cases c9t : truthy (_get_tactic (TKey.tup current.emotion current.attention
        "high" (_zone current.engagement_score)) st.rot).1 = true
    · rw [if_pos c9t] at hr
      injection hr with h1 h2; subst h1
      exact (truthy_iff _).mp c9t
    · rw [if_neg c9t] at hr
      injection hr with h1 h2; subst h1
      exact get_tactic_found (by decide) _
  rw [if_neg c9] at hr
  by_cases c10 : current.engagement_score < 30
  · rw [if_pos c10] at hr
    injection hr with h1 h2; subst h1
    exact get_tactic_found (by decide) _
  rw [if_neg c10] at hr
  by_cases c11 : truthy (_get_tactic (TKey.tup current.emotion current.attention
      (_zone current.stress_score) (_zone current.engagement_score)) st.rot).1 = true
  · rw [if_pos c11] at hr
    injection hr with h1 h2; subst h1
    exact (truthy_iff _).mp c11
  rw [if_neg c11] at hr
  by_cases c12 : truthy (try_fuzzy [
      TKey.tup current.emotion current.attention "mid" (_zone current.engagement_score),
      TKey.tup current.emotion current.attention (_zone current.stress_score) "mid",
      TKey.tup current.emotion current.attention "mid" "mid",
      TKey.tup current.emotion "medium" (_zone current.stress_score)
        (_zone current.engagement_score),
      TKey.tup current.emotion "medium" "mid" (_zone current.engagement_score),
      TKey.tup current.emotion "medium" "mid" "mid"]
      (_get_tactic (TKey.tup current.emotion current.attention
        (_zone current.stress_score) (_zone current.engagement_score)) st.rot).2).1 = true
  · rw [if_pos c12] at hr
    injection hr with h1 h2; subst h1
    exact (truthy_iff _).mp c12
  rw [if_neg c12] at hr
  by_cases c13 : current.engagement_score > 70 ∧ current.stress_score < 35
  · rw [if_pos c13] at hr
    injection hr with h1 h2; subst h1
    exact ⟨flow_state_message, rfl, flow_ok⟩
  rw [if_neg c13] at hr
  injection hr with h1 h2; subst h1
  exact get?_mod_ne default_pool_ok.1 default_pool_ok.2 _

/-- Every alert `detect_alerts` can emit is one of its five fixed strings. -/
theorem detect_alerts_mem (c : Snapshot) (m : List Snapshot) (a : String)
    (ha : a ∈ detect_alerts c m) :
    a ∈ ([eng_drop_alert, stress_spike_alert, low_eng_alert, high_stress_alert,
      attention_lost_alert] : List String) := by
  unfold detect_alerts at ha
  by_cases h : m.length < 2
  · rw [if_pos h] at ha
    simp at ha
  · rw [if_neg h] at ha
    dsimp only at ha
    split_ifs at ha <;> simp_all <;> tauto

/-- The alert branch dispatches whenever the alerts are non-empty detector
strings. -/
theorem alert_dispatch_aux (current : Snapshot) (history : List Snapshot)
    (alerts : List String) (st : PsyState) (hne : alerts ≠ [])
    (hsub : ∀ a ∈ alerts, a ∈ ([eng_drop_alert, stress_spike_alert, low_eng_alert,
      high_stress_alert, attention_lost_alert] : List String)) :
    ∃ t ∈ (["__attention_lost__", "__engagement_drop__", "__stress_spike__"] : List String),
      _psychology_fallback current history alerts st =
        ((_get_tactic (TKey.tag t) st.rot).1,
         { st with rot := (_get_tactic (TKey.tag t) st.rot).2 }) := by
  have hemp : alerts.isEmpty = false := by
    cases alerts with
    | nil => exact absurd rfl hne
    | cons a t => rfl
  unfold _psychology_fallback
  dsimp only
  by_cases hA : alerts.any is_attention_alert = true
  · refine ⟨"__attention_lost__", by simp, ?_⟩
    rw [if_pos (by rw [hemp, hA]; rfl)]
  · have hA' : alerts.any is_attention_alert = false := Bool.eq_false_iff.mpr hA
    rw [if_neg (by rw [hemp, hA']; simp)]
    by_cases hE : alerts.any is_eng_alert = true
    · refine ⟨"__engagement_drop__", by simp, ?_⟩
      rw [if_pos (by rw [hemp, hE]; rfl)]
    · have hE' : alerts.any is_eng_alert = false := Bool.eq_false_iff.mpr hE
      rw [if_neg (by rw [hemp, hE']; simp)]
      have hS : alerts.any is_stress_alert = true := by
        rw [List.any_eq_true]
        obtain ⟨a, ha⟩ := List.exists_mem_of_ne_nil alerts hne
        have hAa : is_attention_alert a = false := by
          have := List.any_eq_false.mp hA' a ha
          exact Bool.eq_false_iff.mpr this
        have hEa : is_eng_alert a = false := by
          have := List.any_eq_false.mp hE' a ha
          exact Bool.eq_false_iff.mpr this
        have hmem := hsub a ha
        simp only [List.mem_cons, List.not_mem_nil, or_false] at hmem
        rcases hmem with rfl | rfl | rfl | rfl | rfl
        · exact absurd hEa (by decide)
        · exact ⟨_, ha, by decide⟩
        · exact absurd hEa (by decide)
        · exact ⟨_, ha, by decide⟩
        · exact absurd hAa (by decide)
      refine ⟨"__stress_spike__", by simp, ?_⟩
      rw [if_pos (by rw [hemp, hS]; rfl)]

/-- C7: the alerts handed to `select` are always drawn from `detect_alerts`'s
five fixed strings, and whenever the alerts list is non-empty and consists of
such strings the alert-driven branch dispatches (in the fixed order
attention_lost, engagement_drop, stress_spike) and returns, so no later
branch — in particular the rotating generic default — is ever reached. -/
theorem alerts_always_dispatch :
    (∀ (c : Snapshot) (m : List Snapshot) (a : String), a ∈ detect_alerts c m →
      a ∈ ([eng_drop_alert, stress_spike_alert, low_eng_alert, high_stress_alert,
        attention_lost_alert] : List String)) ∧
    (∀ (current : Snapshot) (history : List Snapshot) (alerts : List String)
      (st : PsyState), alerts ≠ [] →
      (∀ a ∈ alerts, a ∈ ([eng_drop_alert, stress_spike_alert, low_eng_alert,
        high_stress_alert, attention_lost_alert] : List String)) →
      ∃ t ∈ (["__attention_lost__", "__engagement_drop__", "__stress_spike__"] : List String),
        _psychology_fallback current history alerts st =
          ((_get_tactic (TKey.tag t) st.rot).1,
           { st with rot := (_get_tactic (TKey.tag t) st.rot).2 })) :=
  ⟨detect_alerts_mem, alert_dispatch_aux⟩

/-- Witness for `alerts_always_dispatch` at a concrete alert list. -/
theorem alerts_always_dispatch_witness :
    ∃ t ∈ (["__attention_lost__", "__engagement_drop__", "__stress_spike__"] : List String),
      _psychology_fallback (test_snap 50) [] [high_stress_alert] init_psy =
        ((_get_tactic (TKey.tag t) init_psy.rot).1,
         { init_psy with rot := (_get_tactic (TKey.tag t) init_psy.rot).2 }) :=
  alerts_always_dispatch.2 (test_snap 50) [] [high_stress_alert] init_psy
    (by simp) (by intro a ha; simp at ha; subst ha; simp)

/-- The rotation invariant holds for any single-entry state keyed by its
`last_key`. -/
theorem rot_inv_single (key : TKey) (n : Nat) :
    rot_inv ⟨[(key, n)], some key⟩ := by
  refine ⟨by simp, ?_⟩
  intro p hp
  rw [List.mem_singleton] at hp
  subst hp
  rfl

theorem dict_get_single_other {k k' : TKey} (h : k ≠ k') (n d : Nat) :
    dict_get [(k, n)] k' d = d := by
  unfold dict_get
  rw [List.find?_cons_of_neg _ (by simp [h]), List.find?_nil]

/-- C9 counterexample: when the pre-append history is full (5 snapshots), the
history handed to the advisory call is not the pre-append history — its oldest
entry is gone. -/
theorem advice_history_not_pre_append :
    advice_history [test_snap 0, test_snap 1, test_snap 2, test_snap 3, test_snap 4]
        (test_snap 5) =
      [test_snap 1, test_snap 2, test_snap 3, test_snap 4] ∧
    [test_snap 1, test_snap 2, test_snap 3, test_snap 4] ≠
      [test_snap 0, test_snap 1, test_snap 2, test_snap 3, test_snap 4] := by
  refine ⟨rfl, fun h => ?_⟩
  simpa using congrArg List.length h

/-- C9 amended: `detect_alerts` consults exactly the pre-append history; the
advisory call (and thus `TacticSelector`) runs after the append on
`state_memory[:-1]`, which is the pre-append history when it held fewer than 5
snapshots and the pre-append history minus its oldest entry when full; in
both cases the current snapshot is excluded (it never reappears unless it was
already present). -/
theorem consulted_histories (memory : List Snapshot) (st : PsyState) (current : Snapshot) :
    (analyze_step memory st current).1 = detect_alerts current memory ∧
    advice_history memory current =
      (if memory.length < 5 then memory else memory.drop 1) ∧
    (analyze_step memory st current).2.2 =
      _psychology_fallback current (advice_history memory current)
        (detect_alerts current memory) st ∧
    (current ∉ memory → current ∉ advice_history memory current) := by
  have hadv : advice_history memory current =
      (if memory.length < 5 then memory else memory.drop 1) := by
    unfold advice_history remember
    dsimp only
    split
    · rename_i hgt
      rw [List.length_append, List.length_singleton] at hgt
      rw [if_neg (by omega), List.drop_append_of_le_length (by omega),
        List.dropLast_concat]
    · rename_i hle
      rw [List.length_append, List.length_singleton] at hle
      rw [if_pos (by omega), List.dropLast_concat]
  refine ⟨rfl, hadv, rfl, ?_⟩
  intro hnot
  rw [hadv]
  split
  · exact hnot
  · exact fun hmem => hnot (List.mem_of_mem_drop hmem)

/-- Witness for `consulted_histories`'s exclusion part at a concrete full
history. -/
theorem consulted_histories_witness :
    test_snap 5 ∉
      advice_history [test_snap 0, test_snap 1, test_snap 2, test_snap 3, test_snap 4]
        (test_snap 5) :=
  (consulted_histories [test_snap 0, test_snap 1, test_snap 2, test_snap 3, test_snap 4]
      init_psy (test_snap 5)).2.2.2
    (by norm_num [test_snap, Snapshot.mk.injEq])

/-- C10: the rotation lookup mutates state on every call — it records the key
as current, deletes the previous key's counter, and stores the incremented
hit count — even when the key is absent from the catalog and the lookup
returns nothing; consequently a `select` call that resolves through the
catalog-miss-then-crisis-tag path performs two lookups, the second of which
always finds the crisis tag's counter freshly reset, so repeated identical
calls on that path always return variant 0 and the rotation never advances. -/
theorem miss_path_resets_rotation :
    (∀ (key : TKey) (st : RotState), rot_inv st →
      (_get_tactic key st).2.last_key = some key ∧
      dict_get (_get_tactic key st).2.key_hit_counts key 0 = hits0 st key + 1 ∧
      (∀ old, st.last_key = some old → old ≠ key →
        dict_get (_get_tactic key st).2.key_hit_counts old 0 = 0) ∧
      (tactics_get key = none → (_get_tactic key st).1 = none)) ∧
    (∀ (st : PsyState) (history : List Snapshot), rot_inv st.rot → history.length < 3 →
      _psychology_fallback happy_low_snap history [] st =
        (attn_lost_variants.get? 0,
         { rot := ⟨[(TKey.tag "__attention_lost__", 1)], some (TKey.tag "__attention_lost__")⟩,
           default_idx := st.default_idx })) := by
  constructor
  · intro key st hinv
    rw [get_tactic_state hinv]
    refine ⟨rfl, dict_get_single_self key _ 0, ?_, ?_⟩
    · intro old hold hne
      exact dict_get_single_other (Ne.symm hne) _ 0
    · intro hmiss
      rw [get_tactic_fst, hmiss]
  · intro st history hinv hh
    unfold _psychology_fallback
    dsimp only
    rw [if_neg (by simp), if_neg (by simp), if_neg (by simp), if_neg (by simp),
      if_neg (fun hc => absurd hc.1 (by omega)),
      if_neg (fun hc => absurd hc.1 (by omega)),
      if_neg (fun hc => absurd hc.1 (by omega)),
      if_pos (show happy_low_snap.attention = "low" from rfl)]
    have hmiss : tactics_get (TKey.tup happy_low_snap.emotion "low"
        (_zone happy_low_snap.stress_score) (_zone happy_low_snap.engagement_score)) = none := by
      decide
    have h1 : (_get_tactic (TKey.tup happy_low_snap.emotion "low"
        (_zone happy_low_snap.stress_score) (_zone happy_low_snap.engagement_score)) st.rot).1
        = none := by
      rw [get_tactic_fst, hmiss]
    rw [if_neg (by rw [h1]; simp [truthy])]
    have h2 := get_tactic_state hinv (TKey.tup happy_low_snap.emotion "low"
      (_zone happy_low_snap.stress_score) (_zone happy_low_snap.engagement_score))
    rw [h2]
    have hinv1 := rot_inv_single (TKey.tup happy_low_snap.emotion "low"
      (_zone happy_low_snap.stress_score) (_zone happy_low_snap.engagement_score))
      (hits0 st.rot (TKey.tup happy_low_snap.emotion "low"
        (_zone happy_low_snap.stress_score) (_zone happy_low_snap.engagement_score)) + 1)
    have h3 := get_tactic_state hinv1 (TKey.tag "__attention_lost__")
    have h4 := get_tactic_result hinv1 (TKey.tag "__attention_lost__")
    have hAL : tactics_get (TKey.tag "__attention_lost__") =
        some (Entry.list attn_lost_variants) := rfl
    rw [hAL] at h4
    have hz : hits0 (⟨[(TKey.tup happy_low_snap.emotion "low"
        (_zone happy_low_snap.stress_score) (_zone happy_low_snap.engagement_score),
        hits0 st.rot (TKey.tup happy_low_snap.emotion "low"
          (_zone happy_low_snap.stress_score) (_zone happy_low_snap.engagement_score)) + 1)],
        some (TKey.tup happy_low_snap.emotion "low"
          (_zone happy_low_snap.stress_score) (_zone happy_low_snap.engagement_score))⟩ : RotState)
        (TKey.tag "__attention_lost__") = 0 := by
      unfold hits0
      rw [if_neg (by simp)]
    rw [hz] at h3 h4
    rw [h3, h4]
    norm_num

/-- Witness for `miss_path_resets_rotation` at the initial state and empty
history. -/
theorem miss_path_resets_rotation_witness :
    (_get_tactic K1 init_rot).2.last_key = some K1 ∧
    _psychology_fallback happy_low_snap [] [] init_psy =
      (attn_lost_variants.get? 0,
       { rot := ⟨[(TKey.tag "__attention_lost__", 1)], some (TKey.tag "__attention_lost__")⟩,
         default_idx := init_psy.default_idx }) :=
  ⟨(miss_path_resets_rotation.1 K1 init_rot rot_inv_init).1,
   miss_path_resets_rotation.2 init_psy [] rot_inv_init (by decide)⟩

end CogniSync
